import Mathlib

/-!
Verification of the knowledge retrieval engine of the meet-jarvis backend.

The development shallowly embeds, in Lean:
* the SQL functions installed by the migrations
  (`hybrid_search` from `1751290000000_fix-hybrid-search-threshold.js`,
  `get_knowledge_needing_embeddings` from `1751135277145_add-vector-search-rag.js`);
* the `RAGService` retrieval engine (`semanticSearch`, `textSearch`,
  `buildAIContext`, `findSimilarKnowledge`);
* the `EmbeddingService` enrichment pipeline (`processKnowledgeItem`,
  `processPendingKnowledge`) and the background scheduler wiring of `index.ts`;
* the `AIToolsService` tool dispatch layer (the five-tool registry variant).

External collaborators that the engine only consumes are abstracted as
parameters of an environment record: the pgvector cosine-distance operator
and the pg_trgm `<%` operator become opaque functions supplied by the
environment, remote provider calls become values supplied by the
environment, and fallible RPCs are modelled with `Except` / failure flags.
Machine reals are modelled by `ℚ`; `0.7`, `0.6`, `0.4`, `0.3` are written
`7/10`, `3/5`, `2/5`, `3/10`.
-/

unseal Rat.add Rat.sub Rat.mul Rat.inv Rat.ofScientific

/-- A row of the `meeting_knowledge` table, with the columns added by the
vector-search migration.  `embedding`, `keywords`, `summary` are nullable
(`NULL` until enrichment runs); timestamps are modelled as integers. -/
structure KnowledgeRow where
  id : String
  meeting_id : String
  content : String
  content_type : String
  source : String
  created_at : Int
  updated_at : Int
  embedding : Option (List ℚ)
  keywords : Option (List String)
  summary : Option String
  relevance_score : ℚ
deriving DecidableEq

/-- A row returned by the SQL function `hybrid_search`.  `similarity` is the
value `1 - (mk.embedding <=> query_embedding)` computed in the SELECT list;
`keyword_match` is `query_text <% ANY(mk.keywords)`, which is SQL `NULL`
(modelled `none`) when `keywords` is `NULL`. -/
structure HRow where
  id : String
  meeting_id : String
  content : String
  content_type : String
  source : String
  created_at : Int
  similarity : ℚ
  keyword_match : Option Bool
deriving DecidableEq

/-- Cosine distance of a row's stored embedding from the query embedding.
`dist` abstracts the pgvector `<=>` operator; the `getD` default is only
reached on rows the WHERE clause has already excluded (`embedding IS NULL`). -/
def rowDist (dist : List ℚ → List ℚ → ℚ) (query_embedding : List ℚ)
    (mk : KnowledgeRow) : ℚ :=
  dist (mk.embedding.getD []) query_embedding

/-- The scope condition `(target_meeting_id IS NULL OR mk.meeting_id = target_meeting_id)`. -/
def scopeMatch (target_meeting_id : Option String) (mk : KnowledgeRow) : Bool :=
  match target_meeting_id with
  | none => true
  | some t => mk.meeting_id = t

/-- The WHERE clause of `hybrid_search` (fixed version of migration
`1751290000000`): rows in scope, with a non-NULL embedding, whose cosine
distance is strictly below `1 - match_threshold` or whose keywords
trigram-match the query text (`kwTrigram` abstracts pg_trgm `<%`). -/
def hybridKeep (dist : List ℚ → List ℚ → ℚ) (kwTrigram : String → List String → Bool)
    (query_embedding : List ℚ) (query_text : String)
    (target_meeting_id : Option String) (match_threshold : ℚ)
    (mk : KnowledgeRow) : Bool :=
  scopeMatch target_meeting_id mk && mk.embedding.isSome &&
    (decide (rowDist dist query_embedding mk < 1 - match_threshold) ||
      (mk.keywords.isSome && kwTrigram query_text (mk.keywords.getD [])))

/-- The SELECT list of `hybrid_search`: project a kept row to the returned
record, computing `similarity` and `keyword_match`. -/
def toHRow (dist : List ℚ → List ℚ → ℚ) (kwTrigram : String → List String → Bool)
    (query_embedding : List ℚ) (query_text : String) (mk : KnowledgeRow) : HRow :=
  { id := mk.id
    meeting_id := mk.meeting_id
    content := mk.content
    content_type := mk.content_type
    source := mk.source
    created_at := mk.created_at
    similarity := 1 - rowDist dist query_embedding mk
    keyword_match := mk.keywords.map (fun kws => kwTrigram query_text kws) }

/-- Rank used by `ORDER BY ... keyword_match DESC NULLS LAST`:
`true` sorts before `false`, SQL `NULL` sorts last. -/
def kwRank : Option Bool → Nat
  | some true => 2
  | some false => 1
  | none => 0

/-- The three-key ordering of `hybrid_search`'s `ORDER BY`:
`similarity DESC, keyword_match DESC NULLS LAST, created_at DESC`,
as a boolean "comes no later than" relation. -/
def hrLE (a b : HRow) : Bool :=
  decide (b.similarity < a.similarity) ||
    (decide (a.similarity = b.similarity) &&
      (decide (kwRank b.keyword_match < kwRank a.keyword_match) ||
        (decide (kwRank a.keyword_match = kwRank b.keyword_match) &&
          decide (b.created_at ≤ a.created_at))))

/-- `hrLE` as a relation, so the ORDER BY can be modelled by a sort. -/
def hrProp (a b : HRow) : Prop :=
  hrLE a b = true

instance : DecidableRel hrProp :=
  fun a b => instDecidableEqBool (hrLE a b) true

/-- The SQL function `hybrid_search` (as recreated by migration
`1751290000000_fix-hybrid-search-threshold.js`): filter by the WHERE clause,
project, sort by the ORDER BY keys, and apply `LIMIT match_count`.
The original version of migration `1751135277145` differs only in writing
the similarity as `distance * -1 + 1` (the same value) and in omitting
`NULLS LAST`. -/
def hybrid_search (dist : List ℚ → List ℚ → ℚ) (kwTrigram : String → List String → Bool)
    (rows : List KnowledgeRow) (query_embedding : List ℚ) (query_text : String)
    (target_meeting_id : Option String := none) (match_threshold : ℚ := 7/10)
    (match_count : Nat := 10) : List HRow :=
  (((List.insertionSort hrProp
      ((rows.filter
          (hybridKeep dist kwTrigram query_embedding query_text target_meeting_id
            match_threshold)).map
        (toHRow dist kwTrigram query_embedding query_text))).take match_count))

/-- Recency ordering `created_at DESC` as a boolean relation. -/
def rowRecencyLE (a b : KnowledgeRow) : Bool :=
  decide (b.created_at ≤ a.created_at)

/-- `rowRecencyLE` as a relation. -/
def recencyProp (a b : KnowledgeRow) : Prop :=
  rowRecencyLE a b = true

instance : DecidableRel recencyProp :=
  fun a b => instDecidableEqBool (rowRecencyLE a b) true

/-- The SQL function `get_knowledge_needing_embeddings`: rows with
`embedding IS NULL`, ordered `created_at DESC`, limited to `batch_size`.
(The SELECT list projects a subset of columns; we return whole rows, which
carries strictly more information and changes no claim.) -/
def get_knowledge_needing_embeddings (rows : List KnowledgeRow)
    (batch_size : Nat := 10) : List KnowledgeRow :=
  ((List.insertionSort recencyProp (rows.filter (fun mk => mk.embedding.isNone))).take
    batch_size)

/-- The `SearchResult` shape the retrieval engine returns
(`src/unnamed/part_018`).  The text-search fallback selects whole
`meeting_knowledge` rows, which carry no `similarity` / `keyword_match`
fields at runtime; both are therefore optional here (`none` = absent or
SQL `NULL`). -/
structure SearchResult where
  id : String
  meeting_id : String
  content : String
  content_type : String
  source : String
  created_at : Int
  similarity : Option ℚ
  keyword_match : Option Bool
deriving DecidableEq

/-- Projection of a `hybrid_search` row into the service-level result. -/
def hrowToResult (h : HRow) : SearchResult :=
  { id := h.id
    meeting_id := h.meeting_id
    content := h.content
    content_type := h.content_type
    source := h.source
    created_at := h.created_at
    similarity := some h.similarity
    keyword_match := h.keyword_match }

/-- Projection of a raw table row (text-search fallback, `SELECT *`) into the
service-level result: no similarity / keyword-match semantics. -/
def rowToTextResult (mk : KnowledgeRow) : SearchResult :=
  { id := mk.id
    meeting_id := mk.meeting_id
    content := mk.content
    content_type := mk.content_type
    source := mk.source
    created_at := mk.created_at
    similarity := none
    keyword_match := none }

/-- Environment of `RAGService`: the embedding provider and the knowledge
store, with the store-internal operators (pgvector `<=>`, pg_trgm `<%`,
websearch full-text matching) and RPC failure modes abstracted.
An empty `embed` result models "no embedding available" (missing key or
provider failure, both of which `generateEmbedding` converts to `[]`). -/
structure RagEnv where
  embed : String → List ℚ
  store : List KnowledgeRow
  dist : List ℚ → List ℚ → ℚ
  kwTrigram : String → List String → Bool
  ftsMatch : String → String → Bool
  hybridFails : Bool
  textFails : Bool

/-- JavaScript truthiness of `meetingId || null` and of the
`if (meetingId)` filter guard: `undefined` and `""` both mean "no scope". -/
def scopeOf (meetingId : Option String) : Option String :=
  match meetingId with
  | none => none
  | some m => if m = "" then none else some m

/-- `RAGService.textSearch` (`src/unnamed/part_018` lines 203-255): a
full-text search on `content`, scoped by `meeting_id` when a truthy
`meetingId` is given, ordered by `created_at` descending, capped at `limit`.
A store error, and the surrounding catch, both return `[]`. -/
def textSearch (env : RagEnv) (query : String) (meetingId : Option String := none)
    (limit : Nat := 10) : List SearchResult :=
  if env.textFails then []
  else
    (((List.insertionSort recencyProp
        (env.store.filter (fun mk =>
          env.ftsMatch mk.content query &&
            (match scopeOf meetingId with
              | none => true
              | some m => mk.meeting_id = m)))).take limit).map
      rowToTextResult)

/-- `RAGService.semanticSearch` (`src/unnamed/part_018` lines 104-201):
embed the query; on an empty embedding fall back to `textSearch`; otherwise
call the `hybrid_search` RPC (an initial unscoped probe call is made for
debugging and its result discarded, so it is not modelled); on an RPC error
or a thrown exception fall back to `textSearch`. -/
def semanticSearch (env : RagEnv) (query : String) (meetingId : Option String := none)
    (limit : Nat := 10) (threshold : ℚ := 7/10) : List SearchResult :=
  if (env.embed query).length = 0 then textSearch env query meetingId limit
  else if env.hybridFails then textSearch env query meetingId limit
  else
    ((hybrid_search env.dist env.kwTrigram env.store (env.embed query) query
        (scopeOf meetingId) threshold limit).map hrowToResult)

/-- `RAGService.estimateTokens`: `Math.ceil(text.length / 4)`. -/
def estimateTokens (text : String) : Nat :=
  (text.length + 3) / 4

/-- The context header line `Meeting Context for: "${query}"\n\n`. -/
def contextHeader (query : String) : String :=
  "Meeting Context for: \"" ++ query ++ "\"\n\n"

/-- The zero-results sentinel `Meeting Context: No relevant knowledge found for "${query}"`. -/
def noKnowledgeMsg (query : String) : String :=
  "Meeting Context: No relevant knowledge found for \"" ++ query ++ "\""

/-- The catch-path message `Meeting Context: Error retrieving context for "${query}"`. -/
def contextErrorMsg (query : String) : String :=
  "Meeting Context: Error retrieving context for \"" ++ query ++ "\""

/-- One appended knowledge line `[${item.content_type.toUpperCase()}] ${item.content}\n`. -/
def itemLine (item : SearchResult) : String :=
  "[" ++ item.content_type.toUpper ++ "] " ++ item.content ++ "\n"

/-- The greedy append loop of `buildAIContext`: keep a running token count,
stop at the first item whose estimated tokens would push the count past
`maxTokens` (the JS `break`). -/
def contextLoop (maxTokens : Nat) : List SearchResult → String → Nat → String
  | [], context, _ => context
  | item :: rest, context, tokenCount =>
    let itemText := itemLine item
    let itemTokens := estimateTokens itemText
    if maxTokens < tokenCount + itemTokens then context
    else contextLoop maxTokens rest (context ++ itemText) (tokenCount + itemTokens)

/-- The body of `RAGService.buildAIContext` (`src/unnamed/part_018` lines
257-289) as a function of the search outcome: `Except.error` models an
exception reaching the catch block, `Except.ok []` the zero-results
sentinel path, `Except.ok items` the greedy assembly path seeded with the
header and its token estimate. -/
def buildAIContextFrom (query : String) (outcome : Except Unit (List SearchResult))
    (maxTokens : Nat) : String :=
  match outcome with
  | Except.error _ => contextErrorMsg query
  | Except.ok relevantKnowledge =>
    if relevantKnowledge.length = 0 then noKnowledgeMsg query
    else
      contextLoop maxTokens relevantKnowledge (contextHeader query)
        (estimateTokens (contextHeader query))

/-- `RAGService.buildAIContext` wired to `semanticSearch` with its internal
limit of 15 (and the default threshold). -/
def buildAIContext (env : RagEnv) (query : String) (meetingId : Option String := none)
    (maxTokens : Nat := 2000) : String :=
  buildAIContextFrom query (Except.ok (semanticSearch env query meetingId 15 (7/10))) maxTokens

/-- `RAGService.findSimilarKnowledge` (`src/unnamed/part_018` lines 291-331):
fetch the source row by id (`.single()`; `fetchFails` models a store error);
if it is missing or has no embedding, return `[]`; otherwise call
`hybrid_search` with the row's embedding and content, no meeting filter,
threshold `0.6` and `limit + 1`, and drop the source row's own id. -/
def findSimilarKnowledge (env : RagEnv) (fetchFails : Bool) (knowledgeId : String)
    (limit : Nat := 5) : List SearchResult :=
  if fetchFails then []
  else
    match env.store.find? (fun r => r.id = knowledgeId) with
    | none => []
    | some sourceItem =>
      match sourceItem.embedding with
      | none => []
      | some emb =>
        if env.hybridFails then []
        else
          (((hybrid_search env.dist env.kwTrigram env.store emb sourceItem.content
              none (3/5) (limit + 1)).map hrowToResult).filter
            (fun item => item.id ≠ knowledgeId))

/-- The row update issued by `EmbeddingService.processKnowledgeItem`
(`src/services/embeddingService.ts` lines 142-150): write `embedding`
(`NULL` when the generated vector is empty), `keywords`, `summary` and
`updated_at`; every other column is untouched. -/
def enrichedUpdate (embedding : List ℚ) (keywords : List String) (summary : String)
    (now : Int) (r : KnowledgeRow) : KnowledgeRow :=
  { r with
    embedding := if 0 < embedding.length then some embedding else none
    keywords := some keywords
    summary := some summary
    updated_at := now }

/-- `EmbeddingService.processKnowledgeItem` as a store transformation: the
enrichment outputs (`generateEmbedding`, `extractKeywords`,
`generateSummary`, run concurrently) are inputs here, and the
`UPDATE ... WHERE id = knowledgeId` maps the matching rows through
`enrichedUpdate`. -/
def processKnowledgeItem (embedding : List ℚ) (keywords : List String)
    (summary : String) (now : Int) (store : List KnowledgeRow)
    (knowledgeId : String) : List KnowledgeRow :=
  store.map (fun r =>
    if r.id = knowledgeId then enrichedUpdate embedding keywords summary now r else r)

/-- Environment of one `processPendingKnowledge` run: the store it fetches
from, whether the batch-fetch RPC errors, and which items enrich
successfully (`false` models `processKnowledgeItem` throwing for that item). -/
structure SchedEnv where
  store : List KnowledgeRow
  fetchFails : Bool
  enrichOk : KnowledgeRow → Bool

/-- The atomic prologue of `processPendingKnowledge`
(`src/services/embeddingService.ts` lines 165-170): read the instance's
`isProcessing` flag and, when clear, set it.  The check and the set run in
one event-loop turn (no `await` between them), so they are one atomic step.
Returns the new flag value and whether the run starts. -/
def runBegin (isProcessing : Bool) : Bool × Bool :=
  if isProcessing then (isProcessing, false) else (true, true)

/-- One invocation of `EmbeddingService.processPendingKnowledge` on an
instance whose `isProcessing` flag currently reads `isProcessing`.
Returns the flag after the invocation completes, the number of calls made
to the `get_knowledge_needing_embeddings` RPC (batch size 5), and the
sequential per-item outcomes `(id, succeeded)`: a failing item is logged
and skipped, so every fetched item appears regardless of earlier failures.
The `finally` block clears the flag whenever the run started. -/
def processPendingKnowledge (env : SchedEnv) (isProcessing : Bool) :
    Bool × Nat × List (String × Bool) :=
  match runBegin isProcessing with
  | (flag, false) => (flag, 0, [])
  | (_, true) =>
    if env.fetchFails then (false, 1, [])
    else
      (false, 1,
        (get_knowledge_needing_embeddings env.store 5).map
          (fun item => (item.id, env.enrichOk item)))

/-- Total number of batch-fetch RPC calls when a second trigger fires while
a first run is in flight.  The first trigger starts from a clear flag; what
the second trigger's guard reads depends on the wiring:
* `freshPerTick = false`: both triggers share one `EmbeddingService`
  instance, so the second reads the flag the first run set (`runBegin`).
* `freshPerTick = true`: the wiring of `index.ts` (lines 864-879), where
  `processKnowledge` constructs a `new EmbeddingService()` per tick, so the
  second trigger reads the fresh instance's cleared flag. -/
def overlapFetchCalls (freshPerTick : Bool) (env : SchedEnv) : Nat :=
  let flagSeenBySecond := if freshPerTick then false else (runBegin false).1
  (processPendingKnowledge env false).2.1 +
    (processPendingKnowledge env flagSeenBySecond).2.1

/-- JSON parameter values as the tool registry's schemas use them
(the five tools only take scalar parameters). -/
inductive Json where
  | null : Json
  | bool : Bool → Json
  | num : ℚ → Json
  | str : String → Json
deriving DecidableEq

/-- `ToolCall{name, parameters}`. -/
structure ToolCall where
  name : String
  parameters : List (String × Json)
deriving DecidableEq

/-- Destructuring a string parameter: `none` models JS `undefined`
(missing key; a non-string value is not modelled and treated as absent). -/
def strParam (params : List (String × Json)) (key : String) : Option String :=
  match params.lookup key with
  | some (Json.str s) => some s
  | _ => none

/-- Destructuring a numeric parameter as a count (integral, non-negative;
other numbers are not modelled and treated as absent). -/
def natParam (params : List (String × Json)) (key : String) : Option Nat :=
  match params.lookup key with
  | some (Json.num q) => if q.den = 1 && decide (0 ≤ q.num) then some q.num.toNat else none
  | _ => none

/-- JS truthiness of an optional string: `undefined` and `""` are falsy. -/
def jsTruthyStr (s : Option String) : Option String :=
  match s with
  | none => none
  | some v => if v = "" then none else some v

/-- JS template-literal rendering of a possibly-undefined string. -/
def jsStr (s : Option String) : String :=
  s.getD "undefined"

/-- `sub` occurs as a contiguous run inside the character list. -/
def charsContain (sub : List Char) : List Char → Bool
  | [] => sub.isEmpty
  | c :: t => sub.isPrefixOf (c :: t) || charsContain sub t

/-- JS `String.prototype.includes`. -/
def strIncludes (s sub : String) : Bool :=
  charsContain sub.toList s.toList

/-- JS `String.prototype.toLowerCase` (ASCII, per-character — the contents
this backend filters are ASCII keywords). -/
def lowerStr (s : String) : String :=
  String.mk (s.data.map Char.toLower)

/-- Entry shape `{content, created_at, similarity}` used by the
`recall_decisions` and `get_action_items` envelopes. -/
structure BasicEntry where
  content : String
  created_at : Int
  similarity : Option ℚ
deriving DecidableEq

/-- Entry shape of `search_meeting_knowledge`'s `data.results`. -/
structure SearchToolEntry where
  content : String
  type : String
  source : String
  similarity : Option ℚ
  created_at : Int
deriving DecidableEq

/-- `data` envelope of `search_meeting_knowledge`. -/
structure SearchToolData where
  query : Option String
  results : List SearchToolEntry
  total_found : Nat
deriving DecidableEq

/-- `data` envelope of `recall_decisions`. -/
structure DecisionsData where
  topic : Option String
  decisions : List BasicEntry
deriving DecidableEq

/-- `data` envelope of `get_action_items`. -/
structure ActionItemsData where
  assignee : Option String
  status : String
  action_items : List BasicEntry
deriving DecidableEq

/-- The `content_breakdown` object of `summarize_topic`. -/
structure Breakdown where
  facts : Nat
  context : Nat
  summaries : Nat
  questions : Nat
  answers : Nat
deriving DecidableEq

/-- Entry shape of `summarize_topic`'s `related_items`. -/
structure RelatedItem where
  content : String
  type : String
  similarity : Option ℚ
deriving DecidableEq

/-- `data` envelope of `summarize_topic`; `content_breakdown` and
`key_points` are present only on the non-empty path. -/
structure SummarizeData where
  topic : Option String
  summary : String
  content_breakdown : Option Breakdown
  key_points : Option (List String)
  related_items : List RelatedItem
deriving DecidableEq

/-- Entry shape of `find_similar_discussions`'s `similar_discussions`. -/
structure SimilarEntry where
  content : String
  type : String
  meeting_id : String
  similarity : Option ℚ
  created_at : Int
deriving DecidableEq

/-- `data` envelope of `find_similar_discussions`. -/
structure SimilarData where
  reference_text : Option String
  scope : String
  similar_discussions : List SimilarEntry
deriving DecidableEq

/-- The per-tool `data` payloads (the JSON objects each executor builds). -/
inductive ToolData where
  | search : SearchToolData → ToolData
  | decisions : DecisionsData → ToolData
  | actions : ActionItemsData → ToolData
  | topicSummary : SummarizeData → ToolData
  | similar : SimilarData → ToolData
deriving DecidableEq

/-- `ToolResult{success, data?, error?}`. -/
structure ToolResult where
  success : Bool
  data : Option ToolData
  error : Option String
deriving DecidableEq

/-- Environment of `AIToolsService` (`src/unnamed/part_017`, the five-tool
variant): the meeting the service was constructed for, and
`ragService.semanticSearch` as awaited by the executors —
`(query, meetingId, limit, threshold)`, where `Except.error msg` models the
awaited promise rejecting with an `Error` carrying `msg` (the query may be
JS `undefined` when a required parameter is missing). -/
structure ToolsEnv where
  meetingId : String
  search : Option String → Option String → Nat → ℚ → Except String (List SearchResult)

/-- A registry entry: name, description, declared parameter names and the
`required` list of its JSON schema. -/
structure AITool where
  name : String
  description : String
  paramNames : List String
  required : List String
deriving DecidableEq

/-- `AIToolsService.getAvailableTools` (`src/unnamed/part_017` lines 34-134),
projected to the schema facts the claims use. -/
def getAvailableTools : List AITool :=
  [ { name := "search_meeting_knowledge"
      description := "Search through meeting knowledge and context using semantic search"
      paramNames := ["query", "content_type", "limit"]
      required := ["query"] }
  , { name := "recall_decisions"
      description := "Recall specific decisions made in meetings"
      paramNames := ["topic"]
      required := ["topic"] }
  , { name := "get_action_items"
      description := "Retrieve action items and tasks from meeting discussions"
      paramNames := ["assignee", "status"]
      required := [] }
  , { name := "summarize_topic"
      description := "Generate a summary of discussions on a specific topic"
      paramNames := ["topic", "include_context"]
      required := ["topic"] }
  , { name := "find_similar_discussions"
      description := "Find similar discussions or topics from meeting history"
      paramNames := ["reference_text", "scope"]
      required := ["reference_text"] } ]

/-- The query rewrite of `getActionItems`: `assignee` truthy gives
`action item task ${assignee}`, otherwise the fixed broad query. -/
def actionQueryFor (assignee : Option String) : String :=
  match jsTruthyStr assignee with
  | some a => "action item task " ++ a
  | none => "action item task todo assignment"

/-- Content filter of `getActionItems`: the lower-cased content contains one
of `action`, `task`, `todo`, `assignment`, `responsible`, `deadline`. -/
def isActionContent (r : SearchResult) : Bool :=
  let c := lowerStr r.content
  strIncludes c "action" || strIncludes c "task" || strIncludes c "todo" ||
    strIncludes c "assignment" || strIncludes c "responsible" || strIncludes c "deadline"

/-- Content filter of `recallDecisions`: items of type `summary` or whose
lower-cased content contains `decision` / `decided` / `agreed`. -/
def isDecisionContent (r : SearchResult) : Bool :=
  decide (r.content_type = "summary") || strIncludes (lowerStr r.content) "decision" ||
    strIncludes (lowerStr r.content) "decided" || strIncludes (lowerStr r.content) "agreed"

/-- `AIToolsService.searchMeetingKnowledge` (`src/unnamed/part_017` lines
172-199): search with the given limit (default 5) and threshold `0.6`,
post-filter by `content_type` when that parameter is truthy, cap with
`slice(0, limit)` and count the filtered set in `total_found`. -/
def searchMeetingKnowledge (env : ToolsEnv) (params : List (String × Json)) :
    Except String ToolResult := do
  let query := strParam params "query"
  let content_type := strParam params "content_type"
  let limit := (natParam params "limit").getD 5
  let results ← env.search query (some env.meetingId) limit (3/5)
  let filteredResults : List SearchResult :=
    match jsTruthyStr content_type with
    | some ct => results.filter (fun r => r.content_type = ct)
    | none => results
  pure
    { success := true
      data := some (ToolData.search
        { query := query
          results := (filteredResults.take limit).map (fun r =>
            { content := r.content, type := r.content_type, source := r.source,
              similarity := r.similarity, created_at := r.created_at })
          total_found := filteredResults.length })
      error := none }

/-- `AIToolsService.recallDecisions` (`src/unnamed/part_017` lines 201-230):
rewrite to `decision about ${topic}`, search with limit 10 and threshold
`0.5`, post-filter to decision-shaped items. -/
def recallDecisions (env : ToolsEnv) (params : List (String × Json)) :
    Except String ToolResult := do
  let topic := strParam params "topic"
  let decisionQuery := "decision about " ++ jsStr topic
  let results ← env.search (some decisionQuery) (some env.meetingId) 10 (1/2)
  let decisions := results.filter isDecisionContent
  pure
    { success := true
      data := some (ToolData.decisions
        { topic := topic
          decisions := decisions.map (fun d =>
            { content := d.content, created_at := d.created_at, similarity := d.similarity }) })
      error := none }

/-- `AIToolsService.getActionItems` (`src/unnamed/part_017` lines 232-268):
rewrite the query from the optional `assignee`, search with limit 15 and
threshold `0.4`, post-filter to action-shaped items; `data.assignee` is
`assignee || null`, `data.status` defaults to `all`. -/
def getActionItems (env : ToolsEnv) (params : List (String × Json)) :
    Except String ToolResult := do
  let assignee := strParam params "assignee"
  let status := (strParam params "status").getD "all"
  let actionQuery := actionQueryFor assignee
  let results ← env.search (some actionQuery) (some env.meetingId) 15 (2/5)
  let actionItems := results.filter isActionContent
  pure
    { success := true
      data := some (ToolData.actions
        { assignee := jsTruthyStr assignee
          status := status
          action_items := actionItems.map (fun item =>
            { content := item.content, created_at := item.created_at,
              similarity := item.similarity }) })
      error := none }

/-- `AIToolsService.summarizeTopic` (`src/unnamed/part_017` lines 270-319):
search with limit 20 and threshold `0.3`; zero results yield the explicit
"no discussions found" envelope with `success: true`; otherwise a count
breakdown by type, the top five contents as key points, and all items. -/
def summarizeTopic (env : ToolsEnv) (params : List (String × Json)) :
    Except String ToolResult := do
  let topic := strParam params "topic"
  let results ← env.search topic (some env.meetingId) 20 (3/10)
  if results.length = 0 then
    pure
      { success := true
        data := some (ToolData.topicSummary
          { topic := topic
            summary := "No discussions found about \"" ++ jsStr topic ++ "\" in this meeting."
            content_breakdown := none
            key_points := none
            related_items := [] })
        error := none }
  else
    pure
      { success := true
        data := some (ToolData.topicSummary
          { topic := topic
            summary := "Found " ++ toString results.length ++ " items related to \"" ++
              jsStr topic ++ "\""
            content_breakdown := some
              { facts := (results.filter (fun r => r.content_type = "fact")).length
                context := (results.filter (fun r => r.content_type = "context")).length
                summaries := (results.filter (fun r => r.content_type = "summary")).length
                questions := (results.filter (fun r => r.content_type = "question")).length
                answers := (results.filter (fun r => r.content_type = "answer")).length }
            key_points := some ((results.take 5).map (fun r => r.content))
            related_items := results.map (fun r =>
              { content := r.content, type := r.content_type, similarity := r.similarity }) })
        error := none }

/-- `AIToolsService.findSimilarDiscussions` (`src/unnamed/part_017` lines
321-345): scope `current_meeting` (the default) restricts to the service's
meeting, anything else searches globally; limit 10, threshold `0.6`. -/
def findSimilarDiscussions (env : ToolsEnv) (params : List (String × Json)) :
    Except String ToolResult := do
  let reference_text := strParam params "reference_text"
  let scope := (strParam params "scope").getD "current_meeting"
  let searchMeetingId := if scope = "current_meeting" then some env.meetingId else none
  let results ← env.search reference_text searchMeetingId 10 (3/5)
  pure
    { success := true
      data := some (ToolData.similar
        { reference_text := reference_text
          scope := scope
          similar_discussions := results.map (fun r =>
            { content := r.content, type := r.content_type, meeting_id := r.meeting_id,
              similarity := r.similarity, created_at := r.created_at }) })
      error := none }

/-- The `switch (toolCall.name)` of `AIToolsService.executeTool`
(`src/unnamed/part_017` lines 141-162): sequential name comparison ending in
the dispatch-level "Unknown tool" result.  An `Except.error` is an
exception escaping the matched executor. -/
def dispatchTool (env : ToolsEnv) (toolCall : ToolCall) : Except String ToolResult :=
  if toolCall.name = "search_meeting_knowledge" then
    searchMeetingKnowledge env toolCall.parameters
  else if toolCall.name = "recall_decisions" then
    recallDecisions env toolCall.parameters
  else if toolCall.name = "get_action_items" then
    getActionItems env toolCall.parameters
  else if toolCall.name = "summarize_topic" then
    summarizeTopic env toolCall.parameters
  else if toolCall.name = "find_similar_discussions" then
    findSimilarDiscussions env toolCall.parameters
  else
    Except.ok { success := false, data := none, error := some ("Unknown tool: " ++ toolCall.name) }

/-- `AIToolsService.executeTool` (`src/unnamed/part_017` lines 137-170): the
try/catch wrapper converting any exception into
`{success: false, error: error.message}` (a thrown non-`Error` value, which
the code maps to the fixed string `Tool execution failed`, is not modelled:
the executors only ever re-throw `Error`s from awaited calls). -/
def executeTool (env : ToolsEnv) (toolCall : ToolCall) : ToolResult :=
  match dispatchTool env toolCall with
  | Except.ok result => result
  | Except.error msg => { success := false, data := none, error := some msg }

theorem hrLE_total (a b : HRow) : hrLE a b || hrLE b a := by
  simp only [hrLE, Bool.or_eq_true, Bool.and_eq_true, decide_eq_true_eq]
  rcases lt_trichotomy a.similarity b.similarity with h | h | h
  · exact Or.inr (Or.inl h)
  · rcases lt_trichotomy (kwRank a.keyword_match) (kwRank b.keyword_match) with hk | hk | hk
    · exact Or.inr (Or.inr ⟨h.symm, Or.inl hk⟩)
    · rcases le_total b.created_at a.created_at with hc | hc
      · exact Or.inl (Or.inr ⟨h, Or.inr ⟨hk, hc⟩⟩)
      · exact Or.inr (Or.inr ⟨h.symm, Or.inr ⟨hk.symm, hc⟩⟩)
    · exact Or.inl (Or.inr ⟨h, Or.inl hk⟩)
  · exact Or.inl (Or.inl h)

theorem hrLE_trans (a b c : HRow) : hrLE a b → hrLE b c → hrLE a c := by
  simp only [hrLE, Bool.or_eq_true, Bool.and_eq_true, decide_eq_true_eq]
  rintro (hab | ⟨hsab, hab | ⟨hkab, hcab⟩⟩) (hbc | ⟨hsbc, hbc | ⟨hkbc, hcbc⟩⟩)
  · exact Or.inl (lt_trans hbc hab)
  · exact Or.inl (hsbc ▸ hab)
  · exact Or.inl (hsbc ▸ hab)
  · exact Or.inl (hsab ▸ hbc)
  · exact Or.inr ⟨hsab.trans hsbc, Or.inl (lt_trans hbc hab)⟩
  · exact Or.inr ⟨hsab.trans hsbc, Or.inl (hkbc ▸ hab)⟩
  · exact Or.inl (hsab ▸ hbc)
  · exact Or.inr ⟨hsab.trans hsbc, Or.inl (hkab ▸ hbc)⟩
  · exact Or.inr ⟨hsab.trans hsbc, Or.inr ⟨hkab.trans hkbc, le_trans hcbc hcab⟩⟩

theorem rowRecencyLE_total (a b : KnowledgeRow) : rowRecencyLE a b || rowRecencyLE b a := by
  simp only [rowRecencyLE, Bool.or_eq_true, decide_eq_true_eq]
  exact le_total b.created_at a.created_at

theorem rowRecencyLE_trans (a b c : KnowledgeRow) :
    rowRecencyLE a b → rowRecencyLE b c → rowRecencyLE a c := by
  simp only [rowRecencyLE, decide_eq_true_eq]
  intro h1 h2
  exact le_trans h2 h1

instance : IsTotal HRow hrProp :=
  ⟨fun a b => by
    have h := hrLE_total a b
    rcases Bool.or_eq_true _ _ |>.mp h with h1 | h1
    · exact Or.inl h1
    · exact Or.inr h1⟩

instance : IsTrans HRow hrProp :=
  ⟨fun a b c => hrLE_trans a b c⟩

instance : IsTotal KnowledgeRow recencyProp :=
  ⟨fun a b => by
    have h := rowRecencyLE_total a b
    rcases Bool.or_eq_true _ _ |>.mp h with h1 | h1
    · exact Or.inl h1
    · exact Or.inr h1⟩

instance : IsTrans KnowledgeRow recencyProp :=
  ⟨fun a b c => rowRecencyLE_trans a b c⟩

theorem estimateTokens_append (a b : String) :
    estimateTokens (a ++ b) ≤ estimateTokens a + estimateTokens b := by
  simp only [estimateTokens, String.length_append]
  omega

theorem contextLoop_estimate (maxT : Nat) (items : List SearchResult) :
    ∀ (ctx : String) (cnt : Nat), estimateTokens ctx ≤ cnt →
      estimateTokens (contextLoop maxT items ctx cnt) ≤ max cnt maxT := by
  induction items with
  | nil =>
    intro ctx cnt h
    exact le_trans h (le_max_left _ _)
  | cons item rest ih =>
    intro ctx cnt h
    simp only [contextLoop]
    split
    · exact le_trans h (le_max_left _ _)
    · rename_i hle
      have h2 : estimateTokens (ctx ++ itemLine item) ≤ cnt + estimateTokens (itemLine item) :=
        le_trans (estimateTokens_append ctx (itemLine item)) (by omega)
      have h3 := ih (ctx ++ itemLine item) (cnt + estimateTokens (itemLine item)) h2
      have hm : max (cnt + estimateTokens (itemLine item)) maxT = maxT :=
        max_eq_right (Nat.not_lt.mp hle)
      rw [hm] at h3
      exact le_trans h3 (le_max_right _ _)

/-- C1: for every call to `hybrid_search` with `match_threshold = t`:
(1) every returned row that is not a keyword match (`keyword_match` is
`false` or SQL `NULL`) has `similarity > t` — in particular `similarity ≥ t`
— which is exactly the filter `cosineDistance < 1 - t` since
`similarity = 1 - cosineDistance`;
(2) a row in scope with an embedding whose keywords trigram-match the query
passes the WHERE clause no matter its vector distance;
(3) returned rows are ordered by similarity descending, then keyword_match
descending, then created_at descending (`hrLE`). -/
theorem hybrid_search_threshold_and_order
    (dist : List ℚ → List ℚ → ℚ) (kwTrigram : String → List String → Bool)
    (rows : List KnowledgeRow) (qe : List ℚ) (qt : String)
    (target : Option String) (t : ℚ) (cnt : Nat) :
    (∀ h ∈ hybrid_search dist kwTrigram rows qe qt target t cnt,
        h.keyword_match ≠ some true → t < h.similarity) ∧
    (∀ mk ∈ rows, scopeMatch target mk = true → mk.embedding.isSome = true →
        mk.keywords.map (kwTrigram qt) = some true →
        hybridKeep dist kwTrigram qe qt target t mk = true) ∧
    (hybrid_search dist kwTrigram rows qe qt target t cnt).Pairwise
      (fun a b => hrLE a b = true) := by
  refine ⟨?_, ?_, ?_⟩
  · intro h hmem hkw
    have hmem2 : h ∈ List.insertionSort hrProp
        ((rows.filter (hybridKeep dist kwTrigram qe qt target t)).map
          (toHRow dist kwTrigram qe qt)) :=
      List.mem_of_mem_take hmem
    rw [List.mem_insertionSort] at hmem2
    obtain ⟨mk, hmk, rfl⟩ := List.mem_map.mp hmem2
    obtain ⟨_, hkeep⟩ := List.mem_filter.mp hmk
    simp only [hybridKeep, Bool.and_eq_true, Bool.or_eq_true, decide_eq_true_eq] at hkeep
    obtain ⟨⟨_, _⟩, hcond⟩ := hkeep
    rcases hcond with hdist | ⟨hks, htri⟩
    · simp only [toHRow]
      linarith
    · exfalso
      obtain ⟨kws, hkws⟩ := Option.isSome_iff_exists.mp hks
      apply hkw
      rw [hkws, Option.getD_some] at htri
      simp only [toHRow, hkws, Option.map_some]
      simp [htri]
  · intro mk _ hscope hsome hmap
    obtain ⟨kws, hkws⟩ := Option.isSome_iff_exists.mp hsome
    simp only [hybridKeep, Bool.and_eq_true, Bool.or_eq_true, decide_eq_true_eq]
    refine ⟨⟨hscope, ?_⟩, ?_⟩
    · rw [hkws]; rfl
    · right
      rcases Option.map_eq_some.mp hmap with ⟨k, hk, htk⟩
      rw [hk]
      exact ⟨rfl, by rw [Option.getD_some]; exact htk⟩
  · refine List.Pairwise.sublist (List.take_sublist _ _) ?_
    exact List.sorted_insertionSort hrProp _

/-- Concrete instantiation of C1: a single in-scope row at distance `1/10`
from the query is returned with similarity `9/10`, no keyword match, and the
threshold bound `7/10 < 9/10` follows from the theorem. -/
def c1row : KnowledgeRow :=
  { id := "a", meeting_id := "m", content := "c", content_type := "fact",
    source := "user", created_at := 0, updated_at := 0,
    embedding := some [1/10], keywords := none, summary := none, relevance_score := 1 }

/-- The distance operator used by the C1 witness: reads the distance stored
as the row embedding's first component. -/
def c1dist (re : List ℚ) (_qe : List ℚ) : ℚ :=
  re.headD 1

/-- The trigram operator used by the C1 witness: never matches. -/
def c1kw (_qt : String) (_kws : List String) : Bool :=
  false

/-- The row `hybrid_search` returns in the C1 witness scenario. -/
def c1out : HRow :=
  { id := "a", meeting_id := "m", content := "c", content_type := "fact",
    source := "user", created_at := 0, similarity := 9/10, keyword_match := none }

theorem hybrid_search_threshold_and_order_witness :
    c1out ∈ hybrid_search c1dist c1kw [c1row] [0] "q" none (7/10) 10 ∧
      (7/10 : ℚ) < c1out.similarity := by
  have hmem : c1out ∈ hybrid_search c1dist c1kw [c1row] [0] "q" none (7/10) 10 := by
    decide
  exact ⟨hmem,
    (hybrid_search_threshold_and_order c1dist c1kw [c1row] [0] "q" none
      (7/10) 10).1 _ hmem (by decide)⟩

/-- The largest fixed per-query line `buildAIContext` can return without
consulting the budget: the context header, the zero-results sentinel, or the
catch-path error message. -/
def fixedLineMax (query : String) : Nat :=
  max (estimateTokens (contextHeader query))
    (max (estimateTokens (noKnowledgeMsg query)) (estimateTokens (contextErrorMsg query)))

/-- C2 (counterexample): the claim "the estimated token count of the string
returned by `buildAIContext` never exceeds `maxTokens`, on every path
including the zero-results sentinel path" is false: with `maxTokens = 1` and
query `"x"`, the store is empty, the sentinel line is returned, and its
estimate `13` exceeds the budget. -/
theorem buildAIContext_budget_counterexample :
    1 < estimateTokens (buildAIContext
      { embed := fun _ => [], store := [], dist := fun _ _ => 1,
        kwTrigram := fun _ _ => false, ftsMatch := fun _ _ => false,
        hybridFails := false, textFails := false } "x" none 1) := by
  decide

/-- C2 (amended): the estimated token count of the string `buildAIContext`
returns never exceeds `max maxTokens e`, where `e` is the estimate of the
query's fixed line (header / zero-results sentinel / error message): the
greedy loop keeps the running estimate within `maxTokens`, and only the
budget-unchecked fixed lines can exceed it.  In particular, whenever the
fixed lines fit the budget, the returned string's estimate is at most
`maxTokens` on every path. -/
theorem buildAIContext_budget_bounded (env : RagEnv) (query : String)
    (meetingId : Option String) (maxTokens : Nat)
    (outcome : Except Unit (List SearchResult)) :
    estimateTokens (buildAIContextFrom query outcome maxTokens) ≤
        max maxTokens (fixedLineMax query) ∧
      estimateTokens (buildAIContext env query meetingId maxTokens) ≤
        max maxTokens (fixedLineMax query) := by
  have key : ∀ oc : Except Unit (List SearchResult),
      estimateTokens (buildAIContextFrom query oc maxTokens) ≤
        max maxTokens (fixedLineMax query) := by
    intro oc
    match oc with
    | Except.error _ =>
      simp only [buildAIContextFrom, fixedLineMax]
      exact le_max_of_le_right (le_max_of_le_right (le_max_right _ _))
    | Except.ok items =>
      simp only [buildAIContextFrom, fixedLineMax]
      split
      · exact le_max_of_le_right (le_max_of_le_right (le_max_left _ _))
      · have h := contextLoop_estimate maxTokens items (contextHeader query)
          (estimateTokens (contextHeader query)) (le_refl _)
        refine le_trans h (max_le ?_ (le_max_left _ _))
        exact le_max_of_le_right (le_max_left _ _)
  exact ⟨key outcome, key _⟩

/-- C3: whenever the embedding provider returns the empty vector for the
query, `semanticSearch` returns exactly the list `textSearch` returns for
the same query, scope and limit (the requested threshold is irrelevant on
this path). -/
theorem semanticSearch_empty_embedding_is_textSearch (env : RagEnv) (query : String)
    (meetingId : Option String) (limit : Nat) (threshold : ℚ)
    (h : env.embed query = []) :
    semanticSearch env query meetingId limit threshold =
      textSearch env query meetingId limit := by
  simp [semanticSearch, h]

/-- Concrete instantiation of C3: a provider without a key (empty vector for
every input) over a one-row store. -/
def c3row : KnowledgeRow :=
  { id := "b", meeting_id := "m", content := "hello world", content_type := "fact",
    source := "user", created_at := 3, updated_at := 3,
    embedding := some [0], keywords := none, summary := none, relevance_score := 1 }

/-- The C3 witness environment: no embeddings available, full-text matching
always succeeds. -/
def c3env : RagEnv :=
  { embed := fun _ => [], store := [c3row], dist := fun _ _ => 0,
    kwTrigram := fun _ _ => false, ftsMatch := fun _ _ => true,
    hybridFails := false, textFails := false }

theorem semanticSearch_empty_embedding_is_textSearch_witness :
    c3env.embed "hello" = [] ∧
      semanticSearch c3env "hello" (some "m") 10 (7/10) =
        textSearch c3env "hello" (some "m") 10 :=
  ⟨rfl, semanticSearch_empty_embedding_is_textSearch c3env "hello" (some "m") 10 (7/10) rfl⟩

/-- C7: `findSimilarKnowledge`
(1) returns a list that never contains the source item's own id;
(2) when the source row is absent, returns `[]`, independently of the
hybrid-search operators and their failure flag (so the store's hybrid search
is not consulted) and independently of the text-search machinery (no text
fallback);
(3) when the source row exists but `embedding` is `NULL`, likewise returns
`[]` with the same independence;
(4) when the source row exists with an embedding and the RPC succeeds, the
result is the `hybrid_search` output for that embedding and content with no
scope restriction, threshold `0.6` and match count `limit + 1`, minus the
source id. -/
theorem findSimilarKnowledge_contract (env : RagEnv) (knowledgeId : String) (limit : Nat) :
    (∀ r ∈ findSimilarKnowledge env false knowledgeId limit, r.id ≠ knowledgeId) ∧
    (env.store.find? (fun r => r.id = knowledgeId) = none →
      ∀ d k hf tf, findSimilarKnowledge
        { env with dist := d, kwTrigram := k, hybridFails := hf, textFails := tf }
        false knowledgeId limit = []) ∧
    (∀ src, env.store.find? (fun r => r.id = knowledgeId) = some src →
      src.embedding = none →
      ∀ d k hf tf, findSimilarKnowledge
        { env with dist := d, kwTrigram := k, hybridFails := hf, textFails := tf }
        false knowledgeId limit = []) ∧
    (∀ src emb, env.store.find? (fun r => r.id = knowledgeId) = some src →
      src.embedding = some emb → env.hybridFails = false →
      findSimilarKnowledge env false knowledgeId limit =
        ((hybrid_search env.dist env.kwTrigram env.store emb src.content
            none (3/5) (limit + 1)).map hrowToResult).filter
          (fun item => item.id ≠ knowledgeId)) := by
  refine ⟨?_, ?_, ?_, ?_⟩
  · intro r hr
    simp only [findSimilarKnowledge] at hr
    split at hr
    · exact absurd hr (List.not_mem_nil r)
    · split at hr
      · exact absurd hr (List.not_mem_nil r)
      · split at hr
        · exact absurd hr (List.not_mem_nil r)
        · split at hr
          · exact absurd hr (List.not_mem_nil r)
          · exact of_decide_eq_true (List.mem_filter.mp hr).2
  · intro hnone d k hf tf
    simp [findSimilarKnowledge, hnone]
  · intro src hfind hemb d k hf tf
    simp [findSimilarKnowledge, hfind, hemb]
  · intro src emb hfind hemb hfail
    simp [findSimilarKnowledge, hfind, hemb, hfail]

/-- The source row of the C7 witness: it exists but has no embedding yet. -/
def c7row : KnowledgeRow :=
  { id := "s", meeting_id := "m", content := "c", content_type := "fact",
    source := "user", created_at := 0, updated_at := 0,
    embedding := none, keywords := none, summary := none, relevance_score := 1 }

/-- The C7 witness environment. -/
def c7env : RagEnv :=
  { embed := fun _ => [1], store := [c7row], dist := fun _ _ => 0,
    kwTrigram := fun _ _ => false, ftsMatch := fun _ _ => true,
    hybridFails := false, textFails := false }

theorem findSimilarKnowledge_contract_witness :
    findSimilarKnowledge
      { c7env with
        dist := (fun _ _ => 1)
        kwTrigram := (fun _ _ => true)
        hybridFails := true
        textFails := true } false "s" 5 = [] :=
  (findSimilarKnowledge_contract c7env "s" 5).2.2.1 c7row (by decide) rfl
    (fun _ _ => 1) (fun _ _ => true) true true

/-- C8: enrichment is frame-preserving: the update of `processKnowledgeItem`
writes only `embedding`, `keywords`, `summary`, `updated_at`; every row of
the updated store keeps the `id`, `meeting_id`, `content`, `content_type`,
`source`, `created_at` and `relevance_score` of a row of the original
store, and no rows are added or removed. -/
theorem processKnowledgeItem_frame (emb : List ℚ) (kws : List String) (summ : String)
    (now : Int) (store : List KnowledgeRow) (knowledgeId : String) :
    (processKnowledgeItem emb kws summ now store knowledgeId).length = store.length ∧
    ∀ r' ∈ processKnowledgeItem emb kws summ now store knowledgeId,
      ∃ r ∈ store, r'.id = r.id ∧ r'.meeting_id = r.meeting_id ∧
        r'.content = r.content ∧ r'.content_type = r.content_type ∧
        r'.source = r.source ∧ r'.created_at = r.created_at ∧
        r'.relevance_score = r.relevance_score := by
  constructor
  · simp [processKnowledgeItem]
  · intro r' hr'
    obtain ⟨r, hr, hmap⟩ := List.mem_map.mp hr'
    refine ⟨r, hr, ?_⟩
    by_cases hid : r.id = knowledgeId
    · simp only [hid, if_pos rfl] at hmap
      subst hmap
      simp [enrichedUpdate]
    · rw [if_neg hid] at hmap
      subst hmap
      exact ⟨rfl, rfl, rfl, rfl, rfl, rfl, rfl⟩

/-- The row enriched in the C8 and C10 witness scenarios. -/
def c8row : KnowledgeRow :=
  { id := "x", meeting_id := "m", content := "body", content_type := "fact",
    source := "user", created_at := 0, updated_at := 0,
    embedding := none, keywords := none, summary := none, relevance_score := 1 }

theorem processKnowledgeItem_frame_witness :
    ∃ r ∈ [c8row], (enrichedUpdate [2] ["k"] "s" 9 c8row).id = r.id ∧
      (enrichedUpdate [2] ["k"] "s" 9 c8row).meeting_id = r.meeting_id ∧
      (enrichedUpdate [2] ["k"] "s" 9 c8row).content = r.content ∧
      (enrichedUpdate [2] ["k"] "s" 9 c8row).content_type = r.content_type ∧
      (enrichedUpdate [2] ["k"] "s" 9 c8row).source = r.source ∧
      (enrichedUpdate [2] ["k"] "s" 9 c8row).created_at = r.created_at ∧
      (enrichedUpdate [2] ["k"] "s" 9 c8row).relevance_score = r.relevance_score :=
  (processKnowledgeItem_frame [2] ["k"] "s" 9 [c8row] "x").2
    (enrichedUpdate [2] ["k"] "s" 9 c8row) (by decide)

/-- C6: the scheduler reentrancy contract and where the code breaks it.
(1) At the `EmbeddingService` instance level the guard works: an invocation
that reads `isProcessing = true` is a complete no-op (flag untouched, zero
batch-fetch RPC calls, no items processed), so two overlapping triggers
sharing one instance make exactly one batch-fetch call.
(2) But `index.ts`'s `processKnowledge` constructs a `new EmbeddingService()`
on every tick, so the overlapping second tick reads the fresh instance's
cleared flag: two batch-fetch calls are made during the overlap, violating
the claim (and the guard's own "Already processing ... skipping" intent).
(3) Within a run that fetches successfully, the batch is the up-to-5 rows of
`get_knowledge_needing_embeddings`, each is attempted in fetch order, and a
per-item failure is skipped without aborting: every fetched item appears in
the outcome list no matter which `enrichOk` values are `false`. -/
theorem processPendingKnowledge_reentrancy :
    (∀ env : SchedEnv, processPendingKnowledge env true = (true, 0, []) ∧
      overlapFetchCalls false env = 1) ∧
    (∀ env : SchedEnv, overlapFetchCalls true env = 2) ∧
    (∀ (store : List KnowledgeRow) (enrichOk : KnowledgeRow → Bool),
      processPendingKnowledge { store := store, fetchFails := false, enrichOk := enrichOk }
          false =
        (false, 1, (get_knowledge_needing_embeddings store 5).map
          (fun item => (item.id, enrichOk item))) ∧
      (get_knowledge_needing_embeddings store 5).length ≤ 5) := by
  refine ⟨?_, ?_, ?_⟩
  · intro env
    refine ⟨rfl, ?_⟩
    cases hf : env.fetchFails <;>
      simp [overlapFetchCalls, runBegin, processPendingKnowledge, hf]
  · intro env
    cases hf : env.fetchFails <;>
      simp [overlapFetchCalls, runBegin, processPendingKnowledge, hf]
  · intro store enrichOk
    exact ⟨rfl, List.length_take_le 5 _⟩

/-- C10 (amended): when embedding generation yields the empty vector,
`processKnowledgeItem` writes the item's `embedding` as `NULL` (never as an
empty vector) while still writing `keywords`, `summary` and `updated_at`;
the item therefore still satisfies `embedding IS NULL` and remains eligible:
it is returned by `get_knowledge_needing_embeddings(batch_size)` whenever
the pending (`embedding IS NULL`) rows number at most `batch_size` — the
query orders by `created_at DESC` and limits to `batch_size`, so with more
than `batch_size` pending rows an older item can be crowded out of a batch
(see the counterexample). -/
theorem processKnowledgeItem_empty_embedding_keeps_pending
    (kws : List String) (summ : String) (now : Int) (store : List KnowledgeRow)
    (knowledgeId : String) (batchSize : Nat) :
    (∀ r ∈ store, r.id = knowledgeId →
      enrichedUpdate [] kws summ now r ∈
          processKnowledgeItem [] kws summ now store knowledgeId ∧
        (enrichedUpdate [] kws summ now r).embedding = none ∧
        (enrichedUpdate [] kws summ now r).keywords = some kws ∧
        (enrichedUpdate [] kws summ now r).summary = some summ ∧
        (enrichedUpdate [] kws summ now r).updated_at = now) ∧
    (∀ (rows : List KnowledgeRow) (r : KnowledgeRow), r ∈ rows → r.embedding = none →
      (rows.filter (fun mk => mk.embedding.isNone)).length ≤ batchSize →
      r ∈ get_knowledge_needing_embeddings rows batchSize) := by
  constructor
  · intro r hr hid
    refine ⟨?_, by simp [enrichedUpdate], by simp [enrichedUpdate],
      by simp [enrichedUpdate], by simp [enrichedUpdate]⟩
    have hmem := List.mem_map_of_mem
      (fun s => if s.id = knowledgeId then enrichedUpdate [] kws summ now s else s) hr
    simp only at hmem
    rw [if_pos hid] at hmem
    exact hmem
  · intro rows r hr hemb hlen
    have hfil : r ∈ rows.filter (fun mk => mk.embedding.isNone) := by
      rw [List.mem_filter]
      exact ⟨hr, by simp [hemb]⟩
    have hsortmem : r ∈ List.insertionSort recencyProp
        (rows.filter (fun mk => mk.embedding.isNone)) :=
      (List.mem_insertionSort recencyProp).mpr hfil
    have hslen : (List.insertionSort recencyProp
        (rows.filter (fun mk => mk.embedding.isNone))).length ≤ batchSize := by
      rw [(List.perm_insertionSort recencyProp _).length_eq]
      exact hlen
    unfold get_knowledge_needing_embeddings
    rw [List.take_of_length_le hslen]
    exact hsortmem

/-- The C10 counterexample store: the item `x` awaiting enrichment, plus five
more recent items that also await enrichment. -/
def c10store : List KnowledgeRow :=
  c8row ::
    (List.range 5).map (fun i =>
      { id := "n" ++ toString i, meeting_id := "m", content := "c", content_type := "fact",
        source := "user", created_at := (i : Int) + 1, updated_at := 0,
        embedding := none, keywords := none, summary := none, relevance_score := 1 })

/-- C10 (counterexample): after `processKnowledgeItem` stores `x` with an
empty generated vector, `x` does satisfy `embedding IS NULL` — yet the next
`get_knowledge_needing_embeddings` batch of 5 (the scheduler's batch size)
does not contain `x`, because five more recent pending items fill the
`created_at DESC`-ordered, `LIMIT`ed batch.  So "returned in every
subsequent batch" fails as stated. -/
theorem getKnowledgeNeedingEmbeddings_crowding_counterexample :
    (processKnowledgeItem [] ["k"] "s" 9 c10store "x").any
        (fun r => r.id == "x" && decide (r.embedding = none)) = true ∧
      (get_knowledge_needing_embeddings (processKnowledgeItem [] ["k"] "s" 9 c10store "x") 5).all
        (fun r => r.id != "x") = true := by
  decide

theorem processKnowledgeItem_empty_embedding_keeps_pending_witness :
    enrichedUpdate [] ["k"] "s" 9 c8row ∈ processKnowledgeItem [] ["k"] "s" 9 [c8row] "x" ∧
      enrichedUpdate [] ["k"] "s" 9 c8row ∈
        get_knowledge_needing_embeddings (processKnowledgeItem [] ["k"] "s" 9 [c8row] "x") 5 := by
  have h1 := (processKnowledgeItem_empty_embedding_keeps_pending ["k"] "s" 9 [c8row] "x" 5).1
    c8row (by decide) rfl
  exact ⟨h1.1,
    (processKnowledgeItem_empty_embedding_keeps_pending ["k"] "s" 9 [c8row] "x" 5).2
      (processKnowledgeItem [] ["k"] "s" 9 [c8row] "x")
      (enrichedUpdate [] ["k"] "s" 9 c8row) h1.1 (by decide) (by decide)⟩

theorem searchMeetingKnowledge_ok_success (env : ToolsEnv) (params : List (String × Json))
    (r : ToolResult) (h : searchMeetingKnowledge env params = Except.ok r) :
    r.success = true ∧ r.error = none := by
  unfold searchMeetingKnowledge at h
  simp only [] at h
  cases hs : env.search (strParam params "query") (some env.meetingId)
      ((natParam params "limit").getD 5) (3/5) with
  | error e => rw [hs] at h; simp [Bind.bind, Except.bind] at h
  | ok rs =>
    rw [hs] at h
    simp only [Bind.bind, Except.bind, pure, Except.pure, Except.ok.injEq] at h
    rw [← h]
    exact ⟨rfl, rfl⟩

theorem recallDecisions_ok_success (env : ToolsEnv) (params : List (String × Json))
    (r : ToolResult) (h : recallDecisions env params = Except.ok r) :
    r.success = true ∧ r.error = none := by
  unfold recallDecisions at h
  simp only [] at h
  cases hs : env.search (some ("decision about " ++ jsStr (strParam params "topic")))
      (some env.meetingId) 10 (1/2) with
  | error e => rw [hs] at h; simp [Bind.bind, Except.bind] at h
  | ok rs =>
    rw [hs] at h
    simp only [Bind.bind, Except.bind, pure, Except.pure, Except.ok.injEq] at h
    rw [← h]
    exact ⟨rfl, rfl⟩

theorem getActionItems_ok_success (env : ToolsEnv) (params : List (String × Json))
    (r : ToolResult) (h : getActionItems env params = Except.ok r) :
    r.success = true ∧ r.error = none := by
  unfold getActionItems at h
  simp only [] at h
  cases hs : env.search (some (actionQueryFor (strParam params "assignee")))
      (some env.meetingId) 15 (2/5) with
  | error e => rw [hs] at h; simp [Bind.bind, Except.bind] at h
  | ok rs =>
    rw [hs] at h
    simp only [Bind.bind, Except.bind, pure, Except.pure, Except.ok.injEq] at h
    rw [← h]
    exact ⟨rfl, rfl⟩

theorem summarizeTopic_ok_success (env : ToolsEnv) (params : List (String × Json))
    (r : ToolResult) (h : summarizeTopic env params = Except.ok r) :
    r.success = true ∧ r.error = none := by
  unfold summarizeTopic at h
  simp only [] at h
  cases hs : env.search (strParam params "topic") (some env.meetingId) 20 (3/10) with
  | error e => rw [hs] at h; simp [Bind.bind, Except.bind] at h
  | ok rs =>
    rw [hs] at h
    simp only [Bind.bind, Except.bind] at h
    by_cases hz : rs.length = 0
    · rw [if_pos hz] at h
      simp only [pure, Except.pure, Except.ok.injEq] at h
      rw [← h]
      exact ⟨rfl, rfl⟩
    · rw [if_neg hz] at h
      simp only [pure, Except.pure, Except.ok.injEq] at h
      rw [← h]
      exact ⟨rfl, rfl⟩

theorem findSimilarDiscussions_ok_success (env : ToolsEnv) (params : List (String × Json))
    (r : ToolResult) (h : findSimilarDiscussions env params = Except.ok r) :
    r.success = true ∧ r.error = none := by
  unfold findSimilarDiscussions at h
  simp only [] at h
  cases hs : env.search (strParam params "reference_text")
      (if (strParam params "scope").getD "current_meeting" = "current_meeting" then
        some env.meetingId else none) 10 (3/5) with
  | error e => rw [hs] at h; simp [Bind.bind, Except.bind] at h
  | ok rs =>
    rw [hs] at h
    simp only [Bind.bind, Except.bind, pure, Except.pure, Except.ok.injEq] at h
    rw [← h]
    exact ⟨rfl, rfl⟩

/-- C4: `executeTool` always hands the caller a `ToolResult`:
(1) a `ToolCall` whose name is not in the registry yields the dispatch-level
`{success: false, error: "Unknown tool: <name>"}` rather than an exception;
(2) an exception escaping the matched executor (modelled `Except.error msg`)
is converted by the catch block into `{success: false, error: msg}`;
(3) every unsuccessful result carries an error message (failures are always
structured: no executor produces `success: false` itself, so the only
failure results are the two conversion shapes above). -/
theorem executeTool_no_throw (env : ToolsEnv) (call : ToolCall) :
    (call.name ∉ getAvailableTools.map (fun t => t.name) →
      executeTool env call =
        { success := false, data := none, error := some ("Unknown tool: " ++ call.name) }) ∧
    (∀ msg, dispatchTool env call = Except.error msg →
      executeTool env call = { success := false, data := none, error := some msg }) ∧
    ((executeTool env call).success = false → (executeTool env call).error.isSome = true) := by
  refine ⟨?_, ?_, ?_⟩
  · intro hname
    simp only [getAvailableTools, List.map_cons, List.map_nil, List.mem_cons,
      List.not_mem_nil, or_false, not_or] at hname
    obtain ⟨h1, h2, h3, h4, h5⟩ := hname
    simp [executeTool, dispatchTool, h1, h2, h3, h4, h5]
  · intro msg hd
    simp [executeTool, hd]
  · intro hsucc
    cases hd : dispatchTool env call with
    | error msg => simp [executeTool, hd]
    | ok r =>
      have he : executeTool env call = r := by simp [executeTool, hd]
      rw [he] at hsucc ⊢
      unfold dispatchTool at hd
      by_cases h1 : call.name = "search_meeting_knowledge"
      · rw [if_pos h1] at hd
        rw [(searchMeetingKnowledge_ok_success env call.parameters r hd).1] at hsucc
        exact absurd hsucc (by simp)
      · rw [if_neg h1] at hd
        by_cases h2 : call.name = "recall_decisions"
        · rw [if_pos h2] at hd
          rw [(recallDecisions_ok_success env call.parameters r hd).1] at hsucc
          exact absurd hsucc (by simp)
        · rw [if_neg h2] at hd
          by_cases h3 : call.name = "get_action_items"
          · rw [if_pos h3] at hd
            rw [(getActionItems_ok_success env call.parameters r hd).1] at hsucc
            exact absurd hsucc (by simp)
          · rw [if_neg h3] at hd
            by_cases h4 : call.name = "summarize_topic"
            · rw [if_pos h4] at hd
              rw [(summarizeTopic_ok_success env call.parameters r hd).1] at hsucc
              exact absurd hsucc (by simp)
            · rw [if_neg h4] at hd
              by_cases h5 : call.name = "find_similar_discussions"
              · rw [if_pos h5] at hd
                rw [(findSimilarDiscussions_ok_success env call.parameters r hd).1] at hsucc
                exact absurd hsucc (by simp)
              · rw [if_neg h5] at hd
                simp only [Except.ok.injEq] at hd
                rw [← hd]
                rfl

/-- The C4 witness environment: the search RPC resolves with no rows. -/
def c4env : ToolsEnv :=
  { meetingId := "m", search := fun _ _ _ _ => Except.ok [] }

theorem executeTool_no_throw_witness :
    executeTool c4env { name := "delete_everything", parameters := [] } =
      { success := false, data := none,
        error := some ("Unknown tool: " ++ "delete_everything") } :=
  (executeTool_no_throw c4env { name := "delete_everything", parameters := [] }).1 (by decide)

/-- C5: the registry declares `get_action_items` with `required = []`, and
`executeTool` dispatches it to the executor that searches with the rewritten
query (`action item task ${assignee}` when `assignee` is truthy, otherwise
`action item task todo assignment`) at threshold `0.4` (and limit 15),
post-filters to items whose lower-cased content contains one of `action`,
`task`, `todo`, `assignment`, `responsible`, `deadline`, and returns them
with `success: true`. -/
theorem get_action_items_dispatch (env : ToolsEnv) (params : List (String × Json))
    (rs : List SearchResult)
    (hs : env.search (some (actionQueryFor (strParam params "assignee")))
      (some env.meetingId) 15 (2/5) = Except.ok rs) :
    (∃ t ∈ getAvailableTools, t.name = "get_action_items" ∧ t.required = []) ∧
    executeTool env { name := "get_action_items", parameters := params } =
      { success := true
        data := some (ToolData.actions
          { assignee := jsTruthyStr (strParam params "assignee")
            status := (strParam params "status").getD "all"
            action_items := (rs.filter isActionContent).map (fun item =>
              { content := item.content, created_at := item.created_at,
                similarity := item.similarity }) })
        error := none } ∧
    ∀ r ∈ rs.filter isActionContent,
      strIncludes (lowerStr r.content) "action" = true ∨
      strIncludes (lowerStr r.content) "task" = true ∨
      strIncludes (lowerStr r.content) "todo" = true ∨
      strIncludes (lowerStr r.content) "assignment" = true ∨
      strIncludes (lowerStr r.content) "responsible" = true ∨
      strIncludes (lowerStr r.content) "deadline" = true := by
  refine ⟨by decide, ?_, ?_⟩
  · have hd : dispatchTool env { name := "get_action_items", parameters := params } =
        getActionItems env params := rfl
    simp only [executeTool, hd, getActionItems]
    rw [hs]
    simp [Bind.bind, Except.bind, pure, Except.pure]
  · intro r hr
    have hact := (List.mem_filter.mp hr).2
    simp only [isActionContent, Bool.or_eq_true] at hact
    tauto

/-- The single action-item row of the C5 witness scenario. -/
def c5result : SearchResult :=
  { id := "r1", meeting_id := "m", content := "Take action on the budget",
    content_type := "fact", source := "user", created_at := 1,
    similarity := some 1, keyword_match := none }

/-- The C5 witness environment: the search RPC resolves with that row. -/
def c5env : ToolsEnv :=
  { meetingId := "m", search := fun _ _ _ _ => Except.ok [c5result] }

theorem get_action_items_dispatch_witness :
    executeTool c5env { name := "get_action_items", parameters := [] } =
      { success := true
        data := some (ToolData.actions
          { assignee := none
            status := "all"
            action_items :=
              [{ content := "Take action on the budget", created_at := 1,
                 similarity := some 1 }] })
        error := none } :=
  ((get_action_items_dispatch c5env [] [c5result] rfl).2.1).trans (by decide)

/-- Row builder for the C9 scenario: the vector distance of a row is stored
as the single component of its embedding and read back by `c9dist`. -/
def mkC9Row (i : String) (ty : String) (dv : ℚ) (ct : Int) : KnowledgeRow :=
  { id := i, meeting_id := "m", content := "c" ++ i, content_type := ty,
    source := "user", created_at := ct, updated_at := ct, embedding := some [dv],
    keywords := none, summary := none, relevance_score := 1 }

/-- The distance operator of the C9 scenario. -/
def c9dist (re : List ℚ) (_qe : List ℚ) : ℚ :=
  re.headD 1

/-- The C9 store: three high-similarity `context` rows and five lower (but
above-threshold) `fact` rows, all in meeting `m`. -/
def c9store : List KnowledgeRow :=
  [ mkC9Row "a1" "context" (1/10) 6, mkC9Row "a2" "context" (1/10) 7,
    mkC9Row "a3" "context" (1/10) 8, mkC9Row "f1" "fact" (3/10) 1,
    mkC9Row "f2" "fact" (3/10) 2, mkC9Row "f3" "fact" (3/10) 3,
    mkC9Row "f4" "fact" (3/10) 4, mkC9Row "f5" "fact" (3/10) 5 ]

/-- The retrieval environment over the C9 store. -/
def c9rag : RagEnv :=
  { embed := fun _ => [1], store := c9store, dist := c9dist,
    kwTrigram := fun _ _ => false, ftsMatch := fun _ _ => false,
    hybridFails := false, textFails := false }

/-- The C9 tools environment: the search RPC resolves with the real
`semanticSearch` result over the C9 store. -/
def c9env : ToolsEnv :=
  { meetingId := "m",
    search := fun q mid lim thr => Except.ok (semanticSearch c9rag (q.getD "") mid lim thr) }

/-- The `search_meeting_knowledge` call of the C9 scenario. -/
def c9call : ToolCall :=
  { name := "search_meeting_knowledge",
    parameters := [("query", Json.str "q"), ("content_type", Json.str "fact")] }

/-- Number of result entries the C9 call returns. -/
def c9resultCount : Nat :=
  match (executeTool c9env c9call).data with
  | some (ToolData.search d) => d.results.length
  | _ => 0

/-- C9: with a truthy `content_type` parameter, `search_meeting_knowledge`
(1) returns the type-filtered, `slice(0, limit)`-capped projection of the
search result, with `total_found` counting the type matches inside the
already-capped search result;
(2) every returned entry has the requested type, and at most
`limit` (default 5) entries are returned;
(3) because the filter runs after the search was capped at `limit`, the tool
can return fewer than `limit` matching items even though the store holds at
least `limit` items of the requested type passing the same threshold: in the
concrete C9 scenario the call returns 2 `fact` entries while 5 `fact` rows
in the store pass the threshold. -/
theorem search_meeting_knowledge_type_filter (env : ToolsEnv)
    (params : List (String × Json)) (rs : List SearchResult) (ct : String)
    (hct : jsTruthyStr (strParam params "content_type") = some ct)
    (hs : env.search (strParam params "query") (some env.meetingId)
      ((natParam params "limit").getD 5) (3/5) = Except.ok rs) :
    executeTool env { name := "search_meeting_knowledge", parameters := params } =
      { success := true
        data := some (ToolData.search
          { query := strParam params "query"
            results := ((rs.filter (fun r => r.content_type = ct)).take
              ((natParam params "limit").getD 5)).map (fun r =>
                { content := r.content, type := r.content_type, source := r.source,
                  similarity := r.similarity, created_at := r.created_at })
            total_found := (rs.filter (fun r => r.content_type = ct)).length })
        error := none } ∧
    (∀ e ∈ ((rs.filter (fun r => r.content_type = ct)).take
        ((natParam params "limit").getD 5)).map (fun r =>
          ({ content := r.content, type := r.content_type, source := r.source,
             similarity := r.similarity, created_at := r.created_at } : SearchToolEntry)),
      e.type = ct) ∧
    (((rs.filter (fun r => r.content_type = ct)).take
        ((natParam params "limit").getD 5)).map (fun r =>
          ({ content := r.content, type := r.content_type, source := r.source,
             similarity := r.similarity, created_at := r.created_at } : SearchToolEntry))).length ≤
      (natParam params "limit").getD 5 ∧
    (c9resultCount = 2 ∧ 2 < 5 ∧
      (c9store.filter (fun r =>
        decide (r.content_type = "fact") &&
          decide (rowDist c9dist [1] r < 1 - (3/5 : ℚ)))).length = 5) := by
  refine ⟨?_, ?_, ?_, by decide⟩
  · have hd : dispatchTool env { name := "search_meeting_knowledge", parameters := params } =
        searchMeetingKnowledge env params := rfl
    simp only [executeTool, hd, searchMeetingKnowledge]
    rw [hs]
    simp [Bind.bind, Except.bind, pure, Except.pure, hct]
  · intro e he
    obtain ⟨r, hr, rfl⟩ := List.mem_map.mp he
    have := (List.mem_filter.mp (List.mem_of_mem_take hr)).2
    exact of_decide_eq_true this
  · rw [List.length_map]
    exact List.length_take_le _ _

theorem search_meeting_knowledge_type_filter_witness :
    c9resultCount = 2 ∧ 2 < 5 ∧
      (c9store.filter (fun r =>
        decide (r.content_type = "fact") &&
          decide (rowDist c9dist [1] r < 1 - (3/5 : ℚ)))).length = 5 :=
  (search_meeting_knowledge_type_filter c9env c9call.parameters
    (semanticSearch c9rag "q" (some "m") 5 (3/5)) "fact" (by decide) rfl).2.2.2
